import Mathlib

/-!
Verification of the GLFW windowing backend (`bevy_glfw`).

This file shallowly embeds the pure content of the backend's core:
the monitor-geometry resolver (`GlfwWindow::current_monitor`), the
window-mode state machine (`GlfwWindow::set_window_mode`), the resize
constraint translation (`GlfwWindow::set_resize_constraints`), the
native callbacks of `glfw_windows/callbacks.rs`, the per-window event
drain (`GlfwWindow::handle_events`) and the close handling of
`change_window` in `lib.rs`.

Machine integers are modelled as `Int`/`Nat` with explicit wrap-around
casts; the `f32`/`f64` payloads of native callbacks are modelled as
rationals, and `f32` resize-constraint inputs by an explicit IEEE-style
classification type.  Calls into the native library are recorded as an
explicit trace of `NativeCall` values.
-/

/-- Model of `glam::IVec2` (two `i32` coordinates, kept exact as `Int`). -/
structure IVec2 where
  x : Int
  y : Int
  deriving DecidableEq, Repr

/-- Model of `glam::UVec2` (two `u32` coordinates, kept exact as `Nat`). -/
structure UVec2 where
  x : Nat
  y : Nat
  deriving DecidableEq, Repr

/-- Rust's `u32 as i32` cast: reduce mod `2^32`, reinterpret as two's complement. -/
def u32_as_i32 (n : Nat) : Int :=
  if n % 2 ^ 32 < 2 ^ 31 then ((n % 2 ^ 32 : Nat) : Int)
  else ((n % 2 ^ 32 : Nat) : Int) - 2 ^ 32

/-- Rust's `i32 as u32` cast: two's complement reinterpretation, as `Int.emod`. -/
def i32_as_u32 (i : Int) : Nat :=
  (i % 2 ^ 32).toNat

/-- One connected monitor: its position (`glfwGetMonitorPos`) and the
width/height of its current video mode (`glfwGetVideoMode`). -/
structure Monitor where
  pos : IVec2
  video_width : Int
  video_height : Int
  deriving DecidableEq, Repr

instance : Inhabited Monitor := ⟨⟨⟨0, 0⟩, 0, 0⟩⟩

/-- The overlap key computed by the closure inside
`GlfwWindow::current_monitor` (glfw_windows.rs:160-172): the window
edges are clamped against the monitor rectangle and the product of the
clamped extents is returned. -/
def area_key (window_left window_top window_right window_bottom : Int) (m : Monitor) : Int :=
  let monitor_left := m.pos.x
  let monitor_top := m.pos.y
  let monitor_right := monitor_left + m.video_width
  let monitor_bottom := monitor_top + m.video_height
  let visible_left := min (max window_left monitor_left) monitor_right
  let visible_top := min (max window_top monitor_top) monitor_bottom
  let visible_right := max (min window_right monitor_right) monitor_left
  let visible_bottom := max (min window_bottom monitor_bottom) monitor_top
  (visible_right - visible_left) * (visible_bottom - visible_top)

/-- Rust's `Iterator::max_by_key`: `none` on an empty iterator, otherwise a
fold that replaces the current maximum whenever the new key is `≥` the old
one, so the LAST maximal element of the iteration is kept. -/
def max_by_key_last (key : Nat → Int) : List Nat → Option Nat
  | [] => none
  | x :: xs => some (xs.foldl (fun best j => if key best ≤ key j then j else best) x)

/-- Model of `GlfwWindow::current_monitor` (glfw_windows.rs:144-175),
returning the index of the chosen monitor in enumeration order.
On Wayland the window position is unreliable and the first (primary)
monitor is returned directly.  Otherwise the monitors are iterated in
REVERSE enumeration order and `max_by_key` keeps the last-seen maximum
of the overlap key.  `none` models the aborts (`monitors()` asserts a
non-empty list; `.unwrap()` on the maximum). -/
def current_monitor (wayland : Bool) (pos : IVec2) (size : UVec2) (ms : List Monitor) :
    Option Nat :=
  if wayland then
    if ms.isEmpty then none else some 0
  else
    let window_left := pos.x
    let window_top := pos.y
    let window_right := window_left + u32_as_i32 size.x
    let window_bottom := window_top + u32_as_i32 size.y
    max_by_key_last
      (fun i => area_key window_left window_top window_right window_bottom (ms.getD i default))
      (List.range ms.length).reverse

/-- Length of the intersection of intervals `[a1, a2]` and `[b1, b2]`,
clamped at zero. -/
def inter_len (a1 a2 b1 b2 : Int) : Int :=
  max 0 (min a2 b2 - max a1 b1)

/-- The rectangle-intersection area between the window's bounding box and a
monitor's bounding box, stated the way the claim states it. -/
def window_monitor_overlap (pos : IVec2) (size : UVec2) (m : Monitor) : Int :=
  inter_len pos.x (pos.x + (size.x : Int)) m.pos.x (m.pos.x + m.video_width) *
    inter_len pos.y (pos.y + (size.y : Int)) m.pos.y (m.pos.y + m.video_height)

/-- The four window modes of `bevy::window::WindowMode`. -/
inductive WindowMode where
  | Windowed
  | SizedFullscreen
  | BorderlessFullscreen
  | Fullscreen
  deriving DecidableEq, Repr

/-- The cached per-window state of the `GlfwWindow` struct
(glfw_windows.rs:54-63), together with `native_monitor`, which models the
native monitor association read back by `glfwGetWindowMonitor` (`none`
while windowed, `some` index while fullscreen). -/
structure GlfwWindow where
  pos : IVec2
  size : UVec2
  pre_fullscreen_pos : IVec2
  pre_fullscreen_size : UVec2
  scale_factor : ℚ
  cursor_visible : Bool
  cursor_locked : Bool
  native_monitor : Option Nat
  deriving DecidableEq, Repr

/-- Calls made into the native library, recorded as a trace. -/
inductive NativeCall where
  | set_window_monitor (monitor : Option Nat) (xpos ypos width height : Int)
  | hide_window
  | destroy_window
  | terminate
  deriving DecidableEq, Repr

/-- Model of `GlfwWindow::set_window_mode` (glfw_windows.rs:177-222).
Returns the updated cached state together with the native calls made;
`none` models the process aborts reachable through `current_monitor`
(no monitors detected).  A `Windowed → Windowed` call returns early;
a transition away from `Windowed` snapshots the cached position/size
into the pre-fullscreen fields before the native monitor change. -/
def set_window_mode (wayland : Bool) (ms : List Monitor) (w : GlfwWindow)
    (mode : WindowMode) (resolution : UVec2) : Option (GlfwWindow × List NativeCall) :=
  let set_windowed : Bool := decide (mode = WindowMode.Windowed)
  let currently_windowed : Bool := w.native_monitor.isNone
  if currently_windowed && set_windowed then some (w, [])
  else
    let w :=
      if currently_windowed && !set_windowed then
        { w with pre_fullscreen_pos := w.pos, pre_fullscreen_size := w.size }
      else w
    match current_monitor wayland w.pos w.size ms with
    | none => none
    | some target =>
      let video_mode := ms.getD target default
      match mode with
      | WindowMode.Windowed =>
        some ({ w with native_monitor := none },
          [NativeCall.set_window_monitor none w.pre_fullscreen_pos.x w.pre_fullscreen_pos.y
            (u32_as_i32 w.pre_fullscreen_size.x) (u32_as_i32 w.pre_fullscreen_size.y)])
      | WindowMode.SizedFullscreen =>
        some ({ w with native_monitor := some target },
          [NativeCall.set_window_monitor (some target) 0 0
            (u32_as_i32 resolution.x) (u32_as_i32 resolution.y)])
      | WindowMode.BorderlessFullscreen =>
        some ({ w with native_monitor := some target },
          [NativeCall.set_window_monitor (some target) 0 0
            video_mode.video_width video_mode.video_height])
      | WindowMode.Fullscreen =>
        some ({ w with native_monitor := some target },
          [NativeCall.set_window_monitor (some target) 0 0
            video_mode.video_width video_mode.video_height])

/-- A sequence of `SetWindowMode` commands applied in order, as the
command loop of `change_window` (lib.rs:59-61) would apply them,
concatenating the native-call traces. -/
def apply_modes (wayland : Bool) (ms : List Monitor) (w : GlfwWindow) :
    List (WindowMode × UVec2) → Option (GlfwWindow × List NativeCall)
  | [] => some (w, [])
  | (mode, res) :: rest =>
    match set_window_mode wayland ms w mode res with
    | none => none
    | some (w', calls) =>
      match apply_modes wayland ms w' rest with
      | none => none
      | some (w'', calls') => some (w'', calls ++ calls')

/-- An `f32` value, classified IEEE-style: `nan`, a signed infinity, or a
finite value given by its exact rational value (zero and subnormal values
are `fin q` with `|q| < 2^(-126)`; normal values have `|q| ≥ 2^(-126)`). -/
inductive F32 where
  | nan
  | inf (neg : Bool)
  | fin (q : ℚ)
  deriving DecidableEq, Repr

/-- Rust's `f32::is_normal`: neither zero, subnormal, infinite nor NaN;
for a finite value this is exactly `2^(-126) ≤ |q|`. -/
def F32.is_normal : F32 → Bool
  | F32.fin q => decide ((1 : ℚ) / 2 ^ 126 ≤ |q|)
  | _ => false

/-- Truncation toward zero, the rounding used by Rust's float-to-int `as`:
truncating division of the numerator by the denominator. -/
def trunc_toward_zero (q : ℚ) : Int :=
  Int.tdiv q.num (q.den : Int)

/-- Rust's saturating `f32 as c_int` cast: NaN goes to `0`, infinities to
the `i32` extremes, finite values truncate toward zero and clamp. -/
def f32_as_c_int : F32 → Int
  | F32.nan => 0
  | F32.inf neg => if neg then -(2 ^ 31) else 2 ^ 31 - 1
  | F32.fin q => max (-(2 ^ 31)) (min (2 ^ 31 - 1) (trunc_toward_zero q))

/-- GLFW's sentinel for "no constraint" in `glfwSetWindowSizeLimits`. -/
def GLFW_DONT_CARE : Int := -1

/-- The `conv` closure of `GlfwWindow::set_resize_constraints`
(glfw_windows.rs:257-263): a dimension that `is_normal` is cast to
`c_int`, anything else becomes `GLFW_DONT_CARE`. -/
def conv (dim : F32) : Int :=
  if dim.is_normal then f32_as_c_int dim else GLFW_DONT_CARE

/-- The four fields of `bevy::window::WindowResizeConstraints`. -/
structure WindowResizeConstraints where
  min_width : F32
  min_height : F32
  max_width : F32
  max_height : F32
  deriving DecidableEq, Repr

/-- Model of `GlfwWindow::set_resize_constraints` (glfw_windows.rs:256-272):
the four arguments passed to `glfwSetWindowSizeLimits`, in order
(min width, min height, max width, max height). -/
def set_resize_constraints (c : WindowResizeConstraints) : Int × Int × Int × Int :=
  (conv c.min_width, conv c.min_height, conv c.max_width, conv c.max_height)

/-- Bevy's `MouseButton`. -/
inductive MouseButton where
  | left
  | right
  | middle
  | other (n : Nat)
  deriving DecidableEq, Repr

/-- Bevy's `ButtonState`: it has exactly the two states below. -/
inductive ButtonState where
  | pressed
  | released
  deriving DecidableEq, Repr

/-- Bevy's logical `KeyCode`, restricted to the constructors the backend's
key table mentions. -/
inductive KeyCode where
  | Space | Apostrophe | Comma | Minus | Period | Slash
  | Key0 | Key1 | Key2 | Key3 | Key4 | Key5 | Key6 | Key7 | Key8 | Key9
  | Semicolon | Equals
  | A | B | C | D | E | F | G | H | I | J | K | L | M
  | N | O | P | Q | R | S | T | U | V | W | X | Y | Z
  | LBracket | Backslash | RBracket | Grave
  | Escape | Return | Tab | Back | Insert | Delete
  | Right | Left | Down | Up | PageUp | PageDown | Home | End
  | Scroll | Numlock | Snapshot | Pause
  | F1 | F2 | F3 | F4 | F5 | F6 | F7 | F8 | F9 | F10 | F11 | F12
  | F13 | F14 | F15 | F16 | F17 | F18 | F19 | F20 | F21 | F22 | F23 | F24
  | Numpad0 | Numpad1 | Numpad2 | Numpad3 | Numpad4
  | Numpad5 | Numpad6 | Numpad7 | Numpad8 | Numpad9
  | NumpadDecimal | NumpadDivide | NumpadMultiply | NumpadSubtract
  | NumpadAdd | NumpadEnter | NumpadEquals
  | LShift | LControl | LAlt | LWin | RShift | RControl | RAlt | RWin
  deriving DecidableEq, Repr

/-- Bevy's `KeyboardInput` record: native scancode, optional logical
keycode, and button state. -/
structure KeyboardInput where
  scan_code : Nat
  key_code : Option KeyCode
  state : ButtonState
  deriving DecidableEq, Repr

/-- The buffered event records pushed by the native callbacks
(`GlfwEvent` in glfw_windows/callbacks.rs:44-59).  File-drop paths are
`String`s; character input carries the codepoint of the Rust `char`. -/
inductive GlfwEvent where
  | windowClose
  | windowFocused (focused : Bool)
  | windowContentScale (scale : ℚ)
  | windowPos (pos : IVec2)
  | windowSize (size : UVec2)
  | framebufferSize (size : UVec2)
  | drop (path : String)
  | scroll (x y : ℚ)
  | cursorEnter (entered : Bool)
  | cursorPos (x y : ℚ)
  | mouseButton (button : MouseButton) (state : ButtonState)
  | char (c : Nat)
  | key (k : KeyboardInput)
  deriving DecidableEq, Repr

/-- Callback `windowclose` (callbacks.rs:61-65): push one record. -/
def windowclose (events : List GlfwEvent) : List GlfwEvent :=
  events ++ [GlfwEvent.windowClose]

/-- Callback `windowfocus` (callbacks.rs:67-71): push one record; the
`c_int` flag is compared against `GLFW_TRUE = 1`. -/
def windowfocus (events : List GlfwEvent) (focused : Int) : List GlfwEvent :=
  events ++ [GlfwEvent.windowFocused (focused == 1)]

/-- Callback `windowcontentscale` (callbacks.rs:73-79): `assert_eq!` the
two scale components, then push one record carrying the x component.
`none` models the assertion failure (process abort). -/
def windowcontentscale (events : List GlfwEvent) (xscale yscale : ℚ) :
    Option (List GlfwEvent) :=
  if xscale = yscale then some (events ++ [GlfwEvent.windowContentScale xscale]) else none

/-- The content-scale read-back in `GlfwWindow::new`
(glfw_windows.rs:116-127): `assert_eq!(xscale, yscale)`, then the
x component becomes the cached `scale_factor`.  `none` models the
assertion failure at window creation. -/
def new_content_scale_check (xscale yscale : ℚ) : Option ℚ :=
  if xscale = yscale then some xscale else none

/-- Callback `windowpos` (callbacks.rs:81-85): push one record. -/
def windowpos (events : List GlfwEvent) (xpos ypos : Int) : List GlfwEvent :=
  events ++ [GlfwEvent.windowPos ⟨xpos, ypos⟩]

/-- Callback `windowsize` (callbacks.rs:87-91): push one record, the
`c_int` extents cast to `u32`. -/
def windowsize (events : List GlfwEvent) (width height : Int) : List GlfwEvent :=
  events ++ [GlfwEvent.windowSize ⟨i32_as_u32 width, i32_as_u32 height⟩]

/-- Callback `framebuffersize` (callbacks.rs:93-100): push one record. -/
def framebuffersize (events : List GlfwEvent) (width height : Int) : List GlfwEvent :=
  events ++ [GlfwEvent.framebufferSize ⟨i32_as_u32 width, i32_as_u32 height⟩]

/-- Callback `drop_` (callbacks.rs:102-118).  Each native path is modelled
by the result of `CString::into_string`: `some` a decoded path, `none` a
decoding failure.  Failures are logged and skipped (`filter_map` with
`string_path.ok()?`); every successfully decoded path pushes one record. -/
def drop_ (events : List GlfwEvent) (paths : List (Option String)) : List GlfwEvent :=
  events ++ paths.filterMap (fun path => path.map GlfwEvent.drop)

/-- Callback `scroll` (callbacks.rs:120-124): push one record. -/
def scroll (events : List GlfwEvent) (xoffset yoffset : ℚ) : List GlfwEvent :=
  events ++ [GlfwEvent.scroll xoffset yoffset]

/-- Callback `cursorenter` (callbacks.rs:126-130): push one record. -/
def cursorenter (events : List GlfwEvent) (entered : Int) : List GlfwEvent :=
  events ++ [GlfwEvent.cursorEnter (entered == 1)]

/-- Callback `cursorpos` (callbacks.rs:132-136): push one record carrying
the raw top-left-origin logical position. -/
def cursorpos (events : List GlfwEvent) (xpos ypos : ℚ) : List GlfwEvent :=
  events ++ [GlfwEvent.cursorPos xpos ypos]

/-- Callback `mousebutton` (callbacks.rs:138-159): the native button index
is incremented and matched to left/right/middle/other; the action is cast
to `u32` and must be `GLFW_PRESS = 1` or `GLFW_RELEASE = 0`, anything else
is `unreachable!` (modelled as `none`). -/
def mousebutton (events : List GlfwEvent) (button action : Int) : Option (List GlfwEvent) :=
  let b : MouseButton :=
    match button + 1 with
    | 1 => MouseButton.left
    | 2 => MouseButton.right
    | 3 => MouseButton.middle
    | other => MouseButton.other ((other % 2 ^ 16).toNat)
  match i32_as_u32 action with
  | 1 => some (events ++ [GlfwEvent.mouseButton b ButtonState.pressed])
  | 0 => some (events ++ [GlfwEvent.mouseButton b ButtonState.released])
  | _ => none

/-- Rust's `char::from_u32`: `some` exactly on Unicode scalar values
(not a surrogate, below `0x110000`), `none` otherwise. -/
def char_from_u32 (codepoint : Nat) : Option Nat :=
  if Nat.isValidChar codepoint then some codepoint else none

/-- Callback `char_` (callbacks.rs:161-167): `if let Some(c) =
char::from_u32(codepoint)` — a valid scalar value pushes one record, an
invalid codepoint is silently ignored (no record, no error). -/
def char_ (events : List GlfwEvent) (codepoint : Nat) : List GlfwEvent :=
  match char_from_u32 codepoint with
  | some c => events ++ [GlfwEvent.char c]
  | none => events

/-- The key-translation table of callback `key` (callbacks.rs:180-297),
matching the native key (already cast to `u32`) against the GLFW key
constants; keys not listed map to `none` (unmapped). -/
def key_code_of (k : Nat) : Option KeyCode :=
  match k with
  | 32 => some KeyCode.Space
  | 39 => some KeyCode.Apostrophe
  | 44 => some KeyCode.Comma
  | 45 => some KeyCode.Minus
  | 46 => some KeyCode.Period
  | 47 => some KeyCode.Slash
  | 48 => some KeyCode.Key0
  | 49 => some KeyCode.Key1
  | 50 => some KeyCode.Key2
  | 51 => some KeyCode.Key3
  | 52 => some KeyCode.Key4
  | 53 => some KeyCode.Key5
  | 54 => some KeyCode.Key6
  | 55 => some KeyCode.Key7
  | 56 => some KeyCode.Key8
  | 57 => some KeyCode.Key9
  | 59 => some KeyCode.Semicolon
  | 61 => some KeyCode.Equals
  | 65 => some KeyCode.A
  | 66 => some KeyCode.B
  | 67 => some KeyCode.C
  | 68 => some KeyCode.D
  | 69 => some KeyCode.E
  | 70 => some KeyCode.F
  | 71 => some KeyCode.G
  | 72 => some KeyCode.H
  | 73 => some KeyCode.I
  | 74 => some KeyCode.J
  | 75 => some KeyCode.K
  | 76 => some KeyCode.L
  | 77 => some KeyCode.M
  | 78 => some KeyCode.N
  | 79 => some KeyCode.O
  | 80 => some KeyCode.P
  | 81 => some KeyCode.Q
  | 82 => some KeyCode.R
  | 83 => some KeyCode.S
  | 84 => some KeyCode.T
  | 85 => some KeyCode.U
  | 86 => some KeyCode.V
  | 87 => some KeyCode.W
  | 88 => some KeyCode.X
  | 89 => some KeyCode.Y
  | 90 => some KeyCode.Z
  | 91 => some KeyCode.LBracket
  | 92 => some KeyCode.Backslash
  | 93 => some KeyCode.RBracket
  | 96 => some KeyCode.Grave
  | 256 => some KeyCode.Escape
  | 257 => some KeyCode.Return
  | 258 => some KeyCode.Tab
  | 259 => some KeyCode.Back
  | 260 => some KeyCode.Insert
  | 261 => some KeyCode.Delete
  | 262 => some KeyCode.Right
  | 263 => some KeyCode.Left
  | 264 => some KeyCode.Down
  | 265 => some KeyCode.Up
  | 266 => some KeyCode.PageUp
  | 267 => some KeyCode.PageDown
  | 268 => some KeyCode.Home
  | 269 => some KeyCode.End
  | 281 => some KeyCode.Scroll
  | 282 => some KeyCode.Numlock
  | 283 => some KeyCode.Snapshot
  | 284 => some KeyCode.Pause
  | 290 => some KeyCode.F1
  | 291 => some KeyCode.F2
  | 292 => some KeyCode.F3
  | 293 => some KeyCode.F4
  | 294 => some KeyCode.F5
  | 295 => some KeyCode.F6
  | 296 => some KeyCode.F7
  | 297 => some KeyCode.F8
  | 298 => some KeyCode.F9
  | 299 => some KeyCode.F10
  | 300 => some KeyCode.F11
  | 301 => some KeyCode.F12
  | 302 => some KeyCode.F13
  | 303 => some KeyCode.F14
  | 304 => some KeyCode.F15
  | 305 => some KeyCode.F16
  | 306 => some KeyCode.F17
  | 307 => some KeyCode.F18
  | 308 => some KeyCode.F19
  | 309 => some KeyCode.F20
  | 310 => some KeyCode.F21
  | 311 => some KeyCode.F22
  | 312 => some KeyCode.F23
  | 313 => some KeyCode.F24
  | 320 => some KeyCode.Numpad0
  | 321 => some KeyCode.Numpad1
  | 322 => some KeyCode.Numpad2
  | 323 => some KeyCode.Numpad3
  | 324 => some KeyCode.Numpad4
  | 325 => some KeyCode.Numpad5
  | 326 => some KeyCode.Numpad6
  | 327 => some KeyCode.Numpad7
  | 328 => some KeyCode.Numpad8
  | 329 => some KeyCode.Numpad9
  | 330 => some KeyCode.NumpadDecimal
  | 331 => some KeyCode.NumpadDivide
  | 332 => some KeyCode.NumpadMultiply
  | 333 => some KeyCode.NumpadSubtract
  | 334 => some KeyCode.NumpadAdd
  | 335 => some KeyCode.NumpadEnter
  | 336 => some KeyCode.NumpadEquals
  | 340 => some KeyCode.LShift
  | 341 => some KeyCode.LControl
  | 342 => some KeyCode.LAlt
  | 343 => some KeyCode.LWin
  | 344 => some KeyCode.RShift
  | 345 => some KeyCode.RControl
  | 346 => some KeyCode.RAlt
  | 347 => some KeyCode.RWin
  | _ => none

/-- Callback `key` (callbacks.rs:169-304): push one `KeyboardInput` record
carrying the scancode (cast to `u32`), the translated (possibly absent)
logical keycode, and a state derived from the action cast to `u32`:
`GLFW_PRESS = 1` and `GLFW_REPEAT = 2` both give `pressed`,
`GLFW_RELEASE = 0` gives `released`, anything else is `unreachable!`
(modelled as `none`). -/
def key (events : List GlfwEvent) (keyv scancode action : Int) : Option (List GlfwEvent) :=
  match i32_as_u32 action with
  | 1 => some (events ++ [GlfwEvent.key
      ⟨i32_as_u32 scancode, key_code_of (i32_as_u32 keyv), ButtonState.pressed⟩])
  | 2 => some (events ++ [GlfwEvent.key
      ⟨i32_as_u32 scancode, key_code_of (i32_as_u32 keyv), ButtonState.pressed⟩])
  | 0 => some (events ++ [GlfwEvent.key
      ⟨i32_as_u32 scancode, key_code_of (i32_as_u32 keyv), ButtonState.released⟩])
  | _ => none

/-- The typed events the drain writes into the application's event
resources (`world.resource_mut::<Events<..>>().send(..)` in
`GlfwWindow::handle_events`); window ids are dropped since the drain
runs per window. -/
inductive BevyEvent where
  | windowCloseRequested
  | windowFocused (focused : Bool)
  | windowScaleFactorChanged (scale : ℚ)
  | windowBackendScaleFactorChanged (scale : ℚ)
  | windowMoved (pos : IVec2)
  | fileDropped (path : String)
  | mouseWheel (x y : ℚ)
  | cursorEntered
  | cursorLeft
  | cursorMoved (x y : ℚ)
  | mouseButtonInput (button : MouseButton) (state : ButtonState)
  | receivedCharacter (c : Nat)
  | keyboardInput (k : KeyboardInput)
  | windowResized (width height : Nat)
  deriving DecidableEq, Repr

/-- The mutable state of the bevy-side `Window` that `handle_events`
updates through the `update_*_from_backend` methods. -/
structure BevyWindow where
  focused : Bool
  scale_factor : ℚ
  actual_pos : IVec2
  actual_size : UVec2
  cursor_physical : Option (ℚ × ℚ)
  deriving DecidableEq, Repr

/-- One arm of the `match event` in `GlfwWindow::handle_events`
(glfw_windows.rs:354-457): returns the updated cached window state, the
updated bevy window, whether this record sets the `send_size` flag, and
the application events sent for this record. -/
def handle_one (w : GlfwWindow) (bw : BevyWindow) :
    GlfwEvent → GlfwWindow × BevyWindow × Bool × List BevyEvent
  | GlfwEvent.windowClose =>
    (w, bw, false, [BevyEvent.windowCloseRequested])
  | GlfwEvent.windowFocused focused =>
    (w, { bw with focused := focused }, false, [BevyEvent.windowFocused focused])
  | GlfwEvent.windowContentScale scale =>
    ({ w with scale_factor := scale }, { bw with scale_factor := scale }, true,
      [BevyEvent.windowScaleFactorChanged scale, BevyEvent.windowBackendScaleFactorChanged scale])
  | GlfwEvent.windowPos position =>
    ({ w with pos := position }, { bw with actual_pos := position }, false,
      [BevyEvent.windowMoved position])
  | GlfwEvent.windowSize size =>
    ({ w with size := size }, bw, true, [])
  | GlfwEvent.framebufferSize size =>
    (w, { bw with actual_size := size }, true, [])
  | GlfwEvent.drop path =>
    (w, bw, false, [BevyEvent.fileDropped path])
  | GlfwEvent.scroll x y =>
    (w, bw, false, [BevyEvent.mouseWheel x y])
  | GlfwEvent.cursorEnter entered =>
    if entered then (w, bw, false, [BevyEvent.cursorEntered])
    else (w, { bw with cursor_physical := none }, false, [BevyEvent.cursorLeft])
  | GlfwEvent.cursorPos x y =>
    let flipped_y : ℚ := (w.size.y : ℚ) - y
    let physical : ℚ × ℚ := (x * w.scale_factor, flipped_y * w.scale_factor)
    (w, { bw with cursor_physical := some physical }, false,
      [BevyEvent.cursorMoved x flipped_y])
  | GlfwEvent.mouseButton button state =>
    (w, bw, false, [BevyEvent.mouseButtonInput button state])
  | GlfwEvent.char c =>
    (w, bw, false, [BevyEvent.receivedCharacter c])
  | GlfwEvent.key k =>
    (w, bw, false, [BevyEvent.keyboardInput k])

/-- The drain loop of `GlfwWindow::handle_events` over the pending
records, threading the cached state, the bevy window and the `send_size`
flag and concatenating the sent events in order. -/
def handle_events_aux (w : GlfwWindow) (bw : BevyWindow) (send_size : Bool) :
    List GlfwEvent → GlfwWindow × BevyWindow × Bool × List BevyEvent
  | [] => (w, bw, send_size, [])
  | e :: rest =>
    let s := handle_one w bw e
    let r := handle_events_aux s.1 s.2.1 (send_size || s.2.2.1) rest
    (r.1, r.2.1, r.2.2.1, s.2.2.2 ++ r.2.2.2)

/-- Model of `GlfwWindow::handle_events` (glfw_windows.rs:351-468): drain
every pending record in arrival order, then, if the `send_size` flag was
set, send exactly one `WindowResized` event carrying the final cached
logical size. -/
def handle_events (w : GlfwWindow) (bw : BevyWindow) (events : List GlfwEvent) :
    GlfwWindow × BevyWindow × List BevyEvent :=
  let r := handle_events_aux w bw false events
  (r.1, r.2.1,
    r.2.2.2 ++ (if r.2.2.1 then [BevyEvent.windowResized r.1.size.x r.1.size.y] else []))

/-- Records that set the `send_size` flag in `handle_events`: window-size,
framebuffer-size and content-scale records. -/
def size_affecting : GlfwEvent → Bool
  | GlfwEvent.windowContentScale _ => true
  | GlfwEvent.windowSize _ => true
  | GlfwEvent.framebufferSize _ => true
  | _ => false

/-- Recognizer for the synthesized resize event. -/
def is_resized : BevyEvent → Bool
  | BevyEvent.windowResized _ _ => true
  | _ => false

/-- Predicate on a native call that the close path of a non-last window is
allowed to make: restoring to windowed (a `glfwSetWindowMonitor` with a
null monitor) or hiding; never destroying a window or terminating. -/
def close_call_ok : NativeCall → Bool
  | NativeCall.set_window_monitor m _ _ _ _ => m.isNone
  | NativeCall.hide_window => true
  | _ => false

/-- Model of the close processing in `change_window` (lib.rs:154-167) for
one closed window id over the `glfw_windows.windows` registry (modelled
as an association list in creation order).  If the id is live it is
removed; if other windows remain, the window is first forced back to
`Windowed` mode (`glfwHideWindow` only works on windowed windows) and
then hidden — `glfwDestroyWindow` is never called.  For the last
remaining window nothing further happens at close time.  `none` models
the aborts reachable through `set_window_mode`. -/
def change_window_close (wayland : Bool) (ms : List Monitor)
    (windows : List (Nat × GlfwWindow)) (id : Nat) :
    Option (List (Nat × GlfwWindow) × List NativeCall) :=
  match windows.lookup id with
  | none => some (windows, [])
  | some w =>
    let remaining := windows.filter (fun p => p.1 != id)
    if remaining.isEmpty then some (remaining, [])
    else
      match set_window_mode wayland ms w WindowMode.Windowed ⟨0, 0⟩ with
      | none => none
      | some (_, calls) => some (remaining, calls ++ [NativeCall.hide_window])

/-- The shutdown tail of `glfw_runner` (lib.rs:195-196): after the exit
signal breaks the loop, the remaining state is dropped and
`glfwTerminate()` releases all native resources. -/
def glfw_runner_shutdown : List NativeCall :=
  [NativeCall.terminate]

/-! ## Helper lemmas -/

theorem u32_as_i32_of_lt {n : Nat} (h : n < 2 ^ 31) : u32_as_i32 n = (n : Int) := by
  have hm : n % 2 ^ 32 = n := Nat.mod_eq_of_lt (by omega)
  simp only [u32_as_i32, hm, if_pos h]

theorem clamp_eq_inter_len (wl wr ml mr : Int) (h1 : wl ≤ wr) (h2 : ml ≤ mr) :
    max (min wr mr) ml - min (max wl ml) mr = max 0 (min wr mr - max wl ml) := by
  omega

theorem area_key_eq_overlap (pos : IVec2) (size : UVec2) (m : Monitor)
    (hw : 0 ≤ m.video_width) (hh : 0 ≤ m.video_height) :
    area_key pos.x pos.y (pos.x + (size.x : Int)) (pos.y + (size.y : Int)) m =
      window_monitor_overlap pos size m := by
  show (max (min (pos.x + (size.x : Int)) (m.pos.x + m.video_width)) m.pos.x -
        min (max pos.x m.pos.x) (m.pos.x + m.video_width)) *
      (max (min (pos.y + (size.y : Int)) (m.pos.y + m.video_height)) m.pos.y -
        min (max pos.y m.pos.y) (m.pos.y + m.video_height)) =
      window_monitor_overlap pos size m
  rw [clamp_eq_inter_len _ _ _ _ (by omega) (by omega),
    clamp_eq_inter_len _ _ _ _ (by omega) (by omega)]
  rfl

theorem foldl_pick_spec (key : Nat → Int) (l : List Nat) :
    ∀ acc : Nat, l.Pairwise (fun a b => b < a) → (∀ j ∈ l, j < acc) →
      (l.foldl (fun best j => if key best ≤ key j then j else best) acc = acc ∨
        l.foldl (fun best j => if key best ≤ key j then j else best) acc ∈ l) ∧
      key acc ≤ key (l.foldl (fun best j => if key best ≤ key j then j else best) acc) ∧
      (∀ j ∈ l, key j ≤ key (l.foldl (fun best j => if key best ≤ key j then j else best) acc)) ∧
      (key acc = key (l.foldl (fun best j => if key best ≤ key j then j else best) acc) →
        l.foldl (fun best j => if key best ≤ key j then j else best) acc ≤ acc) ∧
      (∀ j ∈ l, key j = key (l.foldl (fun best j => if key best ≤ key j then j else best) acc) →
        l.foldl (fun best j => if key best ≤ key j then j else best) acc ≤ j) := by
  induction l with
  | nil => intro acc _ _; simp
  | cons x xs ih =>
    intro acc hpw hlt
    have hpw' : xs.Pairwise (fun a b => b < a) := (List.pairwise_cons.mp hpw).2
    have hxlt : x < acc := hlt x (List.mem_cons_self x xs)
    rw [List.foldl_cons]
    by_cases hk : key acc ≤ key x
    · rw [if_pos hk]
      have hx : ∀ j ∈ xs, j < x := (List.pairwise_cons.mp hpw).1
      obtain ⟨hmem, hge, hall, htie, hties⟩ := ih x hpw' hx
      refine ⟨?_, le_trans hk hge, ?_, ?_, ?_⟩
      · rcases hmem with h | h
        · exact Or.inr (by rw [h]; exact List.mem_cons_self x xs)
        · exact Or.inr (List.mem_cons_of_mem x h)
      · intro j hj
        rcases List.mem_cons.mp hj with rfl | hj
        · exact hge
        · exact hall j hj
      · intro heq
        have hxr : key x = key (xs.foldl (fun best j => if key best ≤ key j then j else best) x) :=
          le_antisymm hge (heq ▸ hk)
        exact le_trans (htie hxr) (le_of_lt hxlt)
      · intro j hj heq
        rcases List.mem_cons.mp hj with rfl | hj
        · exact htie heq
        · exact hties j hj heq
    · rw [if_neg hk]
      push_neg at hk
      have hx : ∀ j ∈ xs, j < acc := fun j hj =>
        lt_trans ((List.pairwise_cons.mp hpw).1 j hj) hxlt
      obtain ⟨hmem, hge, hall, htie, hties⟩ := ih acc hpw' hx
      refine ⟨?_, hge, ?_, htie, ?_⟩
      · rcases hmem with h | h
        · exact Or.inl h
        · exact Or.inr (List.mem_cons_of_mem x h)
      · intro j hj
        rcases List.mem_cons.mp hj with rfl | hj
        · exact le_trans (le_of_lt hk) hge
        · exact hall j hj
      · intro j hj heq
        rcases List.mem_cons.mp hj with rfl | hj
        · exact absurd heq (by exact ne_of_lt (lt_of_lt_of_le hk hge))
        · exact hties j hj heq

theorem max_by_key_spec (key : Nat → Int) (n : Nat) (hn : 0 < n) :
    ∃ r, max_by_key_last key (List.range n).reverse = some r ∧ r < n ∧
      (∀ j, j < n → key j ≤ key r) ∧ (∀ j, j < n → key j = key r → r ≤ j) := by
  obtain ⟨m, rfl⟩ : ∃ m, n = m + 1 := ⟨n - 1, by omega⟩
  have hrev : (List.range (m + 1)).reverse = m :: (List.range m).reverse := by
    rw [List.range_succ, List.reverse_append, List.reverse_singleton, List.singleton_append]
  rw [hrev]
  have hpw : (List.range m).reverse.Pairwise (fun a b => b < a) :=
    List.pairwise_reverse.mpr (by simpa using List.pairwise_lt_range m)
  have hlt : ∀ j ∈ (List.range m).reverse, j < m := by
    intro j hj
    exact List.mem_range.mp (List.mem_reverse.mp hj)
  obtain ⟨hmem, hge, hall, htie, hties⟩ := foldl_pick_spec key (List.range m).reverse m hpw hlt
  refine ⟨_, rfl, ?_, ?_, ?_⟩
  · rcases hmem with h | h
    · omega
    · have := hlt _ h; omega
  · intro j hj
    rcases Nat.lt_succ_iff_lt_or_eq.mp hj with hj | rfl
    · exact hall j (List.mem_reverse.mpr (List.mem_range.mpr hj))
    · exact hge
  · intro j hj heq
    rcases Nat.lt_succ_iff_lt_or_eq.mp hj with hj | rfl
    · exact hties j (List.mem_reverse.mpr (List.mem_range.mpr hj)) heq
    · exact htie heq

/-! ## C1: current_monitor maximizes overlap, ties go to the lowest index -/

/-- C1: for every window position/size and every non-empty monitor list
(off the Wayland special case, and with all geometry small enough that
the `i32` arithmetic of the source is exact), `current_monitor` returns
the index of a monitor whose rectangle-intersection area with the
window's bounding box is maximal; among monitors tying on that area it
returns the lowest enumeration index, and in the all-zero-overlap case
it returns index 0, the primary monitor. -/
theorem current_monitor_primary_overlap
    (pos : IVec2) (size : UVec2) (ms : List Monitor)
    (hne : ms ≠ [])
    (_hpx : |pos.x| ≤ 2 ^ 14) (_hpy : |pos.y| ≤ 2 ^ 14)
    (hsx : size.x ≤ 2 ^ 14) (hsy : size.y ≤ 2 ^ 14)
    (hm : ∀ m ∈ ms, |m.pos.x| ≤ 2 ^ 14 ∧ |m.pos.y| ≤ 2 ^ 14 ∧
      0 ≤ m.video_width ∧ m.video_width ≤ 2 ^ 14 ∧
      0 ≤ m.video_height ∧ m.video_height ≤ 2 ^ 14) :
    ∃ i, current_monitor false pos size ms = some i ∧ i < ms.length ∧
      (∀ j, j < ms.length →
        window_monitor_overlap pos size (ms.getD j default) ≤
          window_monitor_overlap pos size (ms.getD i default)) ∧
      (∀ j, j < ms.length →
        window_monitor_overlap pos size (ms.getD j default) =
          window_monitor_overlap pos size (ms.getD i default) → i ≤ j) ∧
      ((∀ j, j < ms.length → window_monitor_overlap pos size (ms.getD j default) = 0) →
        i = 0) := by
  have hn : 0 < ms.length := List.length_pos.mpr hne
  obtain ⟨r, hr, hrlt, hmax, hmin⟩ := max_by_key_spec
    (fun i => area_key pos.x pos.y (pos.x + u32_as_i32 size.x) (pos.y + u32_as_i32 size.y)
      (ms.getD i default)) ms.length hn
  have hkey : ∀ j, j < ms.length →
      area_key pos.x pos.y (pos.x + u32_as_i32 size.x) (pos.y + u32_as_i32 size.y)
        (ms.getD j default) = window_monitor_overlap pos size (ms.getD j default) := by
    intro j hj
    have hmem : ms.getD j default ∈ ms := by
      rw [List.getD_eq_getElem ms default hj]
      exact List.getElem_mem hj
    obtain ⟨_, _, hw, _, hh, _⟩ := hm _ hmem
    rw [u32_as_i32_of_lt (by omega), u32_as_i32_of_lt (by omega)]
    exact area_key_eq_overlap pos size _ hw hh
  refine ⟨r, hr, hrlt, ?_, ?_, ?_⟩
  · intro j hj
    rw [← hkey j hj, ← hkey r hrlt]
    exact hmax j hj
  · intro j hj heq
    exact hmin j hj (by rw [hkey j hj, hkey r hrlt]; exact heq)
  · intro hall
    have h0 : area_key pos.x pos.y (pos.x + u32_as_i32 size.x) (pos.y + u32_as_i32 size.y)
        (ms.getD 0 default) =
        area_key pos.x pos.y (pos.x + u32_as_i32 size.x) (pos.y + u32_as_i32 size.y)
          (ms.getD r default) := by
      rw [hkey 0 hn, hkey r hrlt, hall 0 hn, hall r hrlt]
    have := hmin 0 hn h0
    omega

/-- Witness for C1 on a concrete two-monitor layout. -/
theorem current_monitor_primary_overlap_witness :
    ∃ i, current_monitor false ⟨0, 0⟩ ⟨100, 100⟩
        [⟨⟨0, 0⟩, 1920, 1080⟩, ⟨⟨1920, 0⟩, 1920, 1080⟩] = some i ∧
      i < ([⟨⟨0, 0⟩, 1920, 1080⟩, ⟨⟨1920, 0⟩, 1920, 1080⟩] : List Monitor).length ∧
      (∀ j, j < ([⟨⟨0, 0⟩, 1920, 1080⟩, ⟨⟨1920, 0⟩, 1920, 1080⟩] : List Monitor).length →
        window_monitor_overlap ⟨0, 0⟩ ⟨100, 100⟩
            (([⟨⟨0, 0⟩, 1920, 1080⟩, ⟨⟨1920, 0⟩, 1920, 1080⟩] : List Monitor).getD j default) ≤
          window_monitor_overlap ⟨0, 0⟩ ⟨100, 100⟩
            (([⟨⟨0, 0⟩, 1920, 1080⟩, ⟨⟨1920, 0⟩, 1920, 1080⟩] : List Monitor).getD i default)) ∧
      (∀ j, j < ([⟨⟨0, 0⟩, 1920, 1080⟩, ⟨⟨1920, 0⟩, 1920, 1080⟩] : List Monitor).length →
        window_monitor_overlap ⟨0, 0⟩ ⟨100, 100⟩
            (([⟨⟨0, 0⟩, 1920, 1080⟩, ⟨⟨1920, 0⟩, 1920, 1080⟩] : List Monitor).getD j default) =
          window_monitor_overlap ⟨0, 0⟩ ⟨100, 100⟩
            (([⟨⟨0, 0⟩, 1920, 1080⟩, ⟨⟨1920, 0⟩, 1920, 1080⟩] : List Monitor).getD i default) →
        i ≤ j) ∧
      ((∀ j, j < ([⟨⟨0, 0⟩, 1920, 1080⟩, ⟨⟨1920, 0⟩, 1920, 1080⟩] : List Monitor).length →
        window_monitor_overlap ⟨0, 0⟩ ⟨100, 100⟩
          (([⟨⟨0, 0⟩, 1920, 1080⟩, ⟨⟨1920, 0⟩, 1920, 1080⟩] : List Monitor).getD j default) = 0) →
        i = 0) :=
  current_monitor_primary_overlap ⟨0, 0⟩ ⟨100, 100⟩
    [⟨⟨0, 0⟩, 1920, 1080⟩, ⟨⟨1920, 0⟩, 1920, 1080⟩]
    (by decide) (by decide) (by decide) (by decide) (by decide) (by decide)


/-! ## C2: fullscreen round trip restores the pre-fullscreen snapshot -/

theorem current_monitor_isSome (wayland : Bool) (pos : IVec2) (size : UVec2)
    (ms : List Monitor) (h : ms ≠ []) :
    ∃ t, current_monitor wayland pos size ms = some t := by
  cases wayland with
  | true =>
    cases ms with
    | nil => exact absurd rfl h
    | cons a l => exact ⟨0, rfl⟩
  | false =>
    have hn : 0 < ms.length := List.length_pos.mpr h
    obtain ⟨r, hr, -, -, -⟩ := max_by_key_spec
      (fun i => area_key pos.x pos.y (pos.x + u32_as_i32 size.x) (pos.y + u32_as_i32 size.y)
        (ms.getD i default)) ms.length hn
    exact ⟨r, hr⟩

theorem set_window_mode_to_fullscreen (wayland : Bool) (ms : List Monitor) (w : GlfwWindow)
    (mode : WindowMode) (res : UVec2) (hms : ms ≠ []) (hfs : mode ≠ WindowMode.Windowed) :
    ∃ w' calls t, set_window_mode wayland ms w mode res = some (w', calls) ∧
      w'.pos = w.pos ∧ w'.size = w.size ∧
      w'.pre_fullscreen_pos =
        (if w.native_monitor.isNone then w.pos else w.pre_fullscreen_pos) ∧
      w'.pre_fullscreen_size =
        (if w.native_monitor.isNone then w.size else w.pre_fullscreen_size) ∧
      w'.native_monitor = some t := by
  obtain ⟨t, ht⟩ := current_monitor_isSome wayland w.pos w.size ms hms
  cases hnm : w.native_monitor with
  | none =>
    cases mode with
    | Windowed => exact absurd rfl hfs
    | SizedFullscreen =>
      refine ⟨{ w with pre_fullscreen_pos := w.pos, pre_fullscreen_size := w.size, native_monitor := some t }, [NativeCall.set_window_monitor (some t) 0 0 (u32_as_i32 res.x) (u32_as_i32 res.y)], t, ?_, rfl, rfl, by simp [hnm], by simp [hnm], rfl⟩
      simp [set_window_mode, hnm, ht]
    | BorderlessFullscreen =>
      refine ⟨{ w with pre_fullscreen_pos := w.pos, pre_fullscreen_size := w.size, native_monitor := some t }, [NativeCall.set_window_monitor (some t) 0 0 (ms.getD t default).video_width (ms.getD t default).video_height], t, ?_, rfl, rfl, by simp [hnm], by simp [hnm], rfl⟩
      simp [set_window_mode, hnm, ht]
    | Fullscreen =>
      refine ⟨{ w with pre_fullscreen_pos := w.pos, pre_fullscreen_size := w.size, native_monitor := some t }, [NativeCall.set_window_monitor (some t) 0 0 (ms.getD t default).video_width (ms.getD t default).video_height], t, ?_, rfl, rfl, by simp [hnm], by simp [hnm], rfl⟩
      simp [set_window_mode, hnm, ht]
  | some t0 =>
    cases mode with
    | Windowed => exact absurd rfl hfs
    | SizedFullscreen =>
      refine ⟨{ w with native_monitor := some t }, [NativeCall.set_window_monitor (some t) 0 0 (u32_as_i32 res.x) (u32_as_i32 res.y)], t, ?_, rfl, rfl, by simp [hnm], by simp [hnm], rfl⟩
      simp [set_window_mode, hnm, ht]
    | BorderlessFullscreen =>
      refine ⟨{ w with native_monitor := some t }, [NativeCall.set_window_monitor (some t) 0 0 (ms.getD t default).video_width (ms.getD t default).video_height], t, ?_, rfl, rfl, by simp [hnm], by simp [hnm], rfl⟩
      simp [set_window_mode, hnm, ht]
    | Fullscreen =>
      refine ⟨{ w with native_monitor := some t }, [NativeCall.set_window_monitor (some t) 0 0 (ms.getD t default).video_width (ms.getD t default).video_height], t, ?_, rfl, rfl, by simp [hnm], by simp [hnm], rfl⟩
      simp [set_window_mode, hnm, ht]

theorem set_window_mode_restore (wayland : Bool) (ms : List Monitor) (w : GlfwWindow)
    (res : UVec2) (t0 : Nat) (hms : ms ≠ []) (hm : w.native_monitor = some t0) :
    set_window_mode wayland ms w WindowMode.Windowed res =
      some ({ w with native_monitor := none },
        [NativeCall.set_window_monitor none w.pre_fullscreen_pos.x w.pre_fullscreen_pos.y
          (u32_as_i32 w.pre_fullscreen_size.x) (u32_as_i32 w.pre_fullscreen_size.y)]) := by
  obtain ⟨t, ht⟩ := current_monitor_isSome wayland w.pos w.size ms hms
  simp [set_window_mode, hm, ht]

theorem apply_modes_fs_then_restore (wayland : Bool) (ms : List Monitor) (rl : UVec2)
    (hms : ms ≠ []) :
    ∀ (mids : List (WindowMode × UVec2)) (w : GlfwWindow) (t0 : Nat),
      w.native_monitor = some t0 → (∀ p ∈ mids, p.1 ≠ WindowMode.Windowed) →
      ∃ w' pre,
        apply_modes wayland ms w (mids ++ [(WindowMode.Windowed, rl)]) =
          some (w', pre ++ [NativeCall.set_window_monitor none w.pre_fullscreen_pos.x
            w.pre_fullscreen_pos.y (u32_as_i32 w.pre_fullscreen_size.x)
            (u32_as_i32 w.pre_fullscreen_size.y)]) ∧
        w'.native_monitor = none ∧ w'.pos = w.pos ∧ w'.size = w.size := by
  intro mids
  induction mids with
  | nil =>
    intro w t0 h0 _
    refine ⟨{ w with native_monitor := none }, [], ?_, rfl, rfl, rfl⟩
    simp [apply_modes, set_window_mode_restore wayland ms w rl t0 hms h0]
  | cons p rest ih =>
    intro w t0 h0 hall
    obtain ⟨mode, res⟩ := p
    have hmode : mode ≠ WindowMode.Windowed := hall (mode, res) (List.mem_cons_self _ _)
    obtain ⟨w1, calls1, t1, hw1, hp1, hs1, hfp1, hfs1, hm1⟩ :=
      set_window_mode_to_fullscreen wayland ms w mode res hms hmode
    rw [h0] at hfp1 hfs1
    simp only [Option.isNone_some, Bool.false_eq_true, if_false] at hfp1 hfs1
    obtain ⟨w', pre, happ, hm', hp', hs'⟩ :=
      ih w1 t1 hm1 (fun q hq => hall q (List.mem_cons_of_mem _ hq))
    rw [hfp1, hfs1] at happ
    refine ⟨w', calls1 ++ pre, ?_, hm', by rw [hp', hp1], by rw [hs', hs1]⟩
    show apply_modes wayland ms w ((mode, res) :: (rest ++ [(WindowMode.Windowed, rl)])) = _
    simp only [apply_modes, hw1, happ]
    rw [List.append_assoc]

/-- C2: starting from a windowed window, a first transition into any
fullscreen mode followed by any number of fullscreen-to-fullscreen mode
switches and a final transition back to `Windowed` issues a final native
restore call whose position and size are exactly the cached position and
size from immediately before the first transition: the pre-fullscreen
snapshot is taken only on the Windowed-to-fullscreen edge and never
overwritten while fullscreen. -/
theorem set_window_mode_round_trip (wayland : Bool) (ms : List Monitor) (w : GlfwWindow)
    (first : WindowMode) (r1 : UVec2) (mids : List (WindowMode × UVec2)) (rl : UVec2)
    (hms : ms ≠ []) (hw : w.native_monitor = none) (hfirst : first ≠ WindowMode.Windowed)
    (hmids : ∀ p ∈ mids, p.1 ≠ WindowMode.Windowed) :
    ∃ w' pre,
      apply_modes wayland ms w ((first, r1) :: (mids ++ [(WindowMode.Windowed, rl)])) =
        some (w', pre ++ [NativeCall.set_window_monitor none w.pos.x w.pos.y
          (u32_as_i32 w.size.x) (u32_as_i32 w.size.y)]) ∧
      w'.native_monitor = none ∧ w'.pos = w.pos ∧ w'.size = w.size := by
  obtain ⟨w1, calls1, t1, hw1, hp1, hs1, hfp1, hfs1, hm1⟩ :=
    set_window_mode_to_fullscreen wayland ms w first r1 hms hfirst
  rw [hw] at hfp1 hfs1
  simp only [Option.isNone_none, if_true] at hfp1 hfs1
  obtain ⟨w', pre, happ, hm', hp', hs'⟩ :=
    apply_modes_fs_then_restore wayland ms rl hms mids w1 t1 hm1 hmids
  rw [hfp1, hfs1] at happ
  refine ⟨w', calls1 ++ pre, ?_, hm', by rw [hp', hp1], by rw [hs', hs1]⟩
  simp only [apply_modes, hw1, happ]
  rw [List.append_assoc]

/-- Witness for C2: Fullscreen, then SizedFullscreen, then back to
Windowed restores the original position (10, 20) and size 300×200. -/
theorem set_window_mode_round_trip_witness :
    ∃ w' pre,
      apply_modes false [⟨⟨0, 0⟩, 1920, 1080⟩]
          ⟨⟨10, 20⟩, ⟨300, 200⟩, ⟨0, 0⟩, ⟨0, 0⟩, 1, true, false, none⟩
          ((WindowMode.Fullscreen, ⟨0, 0⟩) ::
            ([(WindowMode.SizedFullscreen, ⟨640, 480⟩)] ++ [(WindowMode.Windowed, ⟨0, 0⟩)])) =
        some (w', pre ++ [NativeCall.set_window_monitor none 10 20
          (u32_as_i32 300) (u32_as_i32 200)]) ∧
      w'.native_monitor = none ∧
      w'.pos = (⟨⟨10, 20⟩, ⟨300, 200⟩, ⟨0, 0⟩, ⟨0, 0⟩, 1, true, false,
        none⟩ : GlfwWindow).pos ∧
      w'.size = (⟨⟨10, 20⟩, ⟨300, 200⟩, ⟨0, 0⟩, ⟨0, 0⟩, 1, true, false,
        none⟩ : GlfwWindow).size :=
  set_window_mode_round_trip false [⟨⟨0, 0⟩, 1920, 1080⟩]
    ⟨⟨10, 20⟩, ⟨300, 200⟩, ⟨0, 0⟩, ⟨0, 0⟩, 1, true, false, none⟩
    WindowMode.Fullscreen ⟨0, 0⟩ [(WindowMode.SizedFullscreen, ⟨640, 480⟩)] ⟨0, 0⟩
    (by decide) rfl (by decide) (by decide)

/-! ## C3: exactly one resize event per drain cycle -/

theorem handle_one_send_size (w : GlfwWindow) (bw : BevyWindow) (e : GlfwEvent) :
    (handle_one w bw e).2.2.1 = size_affecting e := by
  cases e with
  | cursorEnter entered => cases entered <;> rfl
  | _ => rfl

theorem handle_one_no_resized (w : GlfwWindow) (bw : BevyWindow) (e : GlfwEvent) :
    (handle_one w bw e).2.2.2.countP is_resized = 0 := by
  cases e with
  | cursorEnter entered => cases entered <;> rfl
  | _ => rfl

theorem handle_events_aux_spec (events : List GlfwEvent) :
    ∀ (w : GlfwWindow) (bw : BevyWindow) (send_size : Bool),
      (handle_events_aux w bw send_size events).2.2.1 =
        (send_size || events.any size_affecting) ∧
      (handle_events_aux w bw send_size events).2.2.2.countP is_resized = 0 := by
  induction events with
  | nil => intro w bw send_size; simp [handle_events_aux]
  | cons e rest ih =>
    intro w bw send_size
    obtain ⟨ihb, ihc⟩ := ih (handle_one w bw e).1 (handle_one w bw e).2.1
      (send_size || (handle_one w bw e).2.2.1)
    constructor
    · rw [handle_events_aux]
      show (handle_events_aux (handle_one w bw e).1 (handle_one w bw e).2.1
          (send_size || (handle_one w bw e).2.2.1) rest).2.2.1 = _
      rw [ihb, handle_one_send_size, List.any_cons, Bool.or_assoc]
    · rw [handle_events_aux]
      show ((handle_one w bw e).2.2.2 ++ (handle_events_aux (handle_one w bw e).1
          (handle_one w bw e).2.1 (send_size || (handle_one w bw e).2.2.1) rest).2.2.2).countP
          is_resized = 0
      rw [List.countP_append, handle_one_no_resized, ihc]

/-- C3: in one drain cycle over a window's pending records, if at least
one window-size, framebuffer-size or content-scale record is present then
exactly one `WindowResized` event is emitted, it is the last event of the
drain, and it carries the final cached logical size; with no such record
present, no resize event is emitted. -/
theorem handle_events_single_resize (w : GlfwWindow) (bw : BevyWindow)
    (events : List GlfwEvent) :
    ((handle_events w bw events).2.2.countP is_resized =
      if events.any size_affecting then 1 else 0) ∧
    (events.any size_affecting = true →
      ∃ pre, (handle_events w bw events).2.2 =
          pre ++ [BevyEvent.windowResized (handle_events w bw events).1.size.x
            (handle_events w bw events).1.size.y] ∧
        pre.countP is_resized = 0) ∧
    (events.any size_affecting = false →
      (handle_events w bw events).2.2.countP is_resized = 0) := by
  obtain ⟨hb, hc⟩ := handle_events_aux_spec events w bw false
  rw [Bool.false_or] at hb
  refine ⟨?_, ?_, ?_⟩
  · show ((handle_events_aux w bw false events).2.2.2 ++
        (if (handle_events_aux w bw false events).2.2.1 then _ else [])).countP is_resized = _
    rw [List.countP_append, hc, hb]
    cases events.any size_affecting <;> rfl
  · intro hany
    refine ⟨(handle_events_aux w bw false events).2.2.2, ?_, hc⟩
    show (handle_events_aux w bw false events).2.2.2 ++
        (if (handle_events_aux w bw false events).2.2.1 then _ else []) = _
    rw [hb, hany, if_pos rfl]
    rfl
  · intro hnone
    show ((handle_events_aux w bw false events).2.2.2 ++
        (if (handle_events_aux w bw false events).2.2.1 then _ else [])).countP is_resized = _
    rw [List.countP_append, hc, hb, hnone, if_neg (by simp)]
    rfl

/-- Witness for C3: a drain with one window-size and one framebuffer-size
record emits exactly one resize event, placed last. -/
theorem handle_events_single_resize_witness :
    ([GlfwEvent.windowSize ⟨50, 60⟩, GlfwEvent.framebufferSize ⟨100, 120⟩].any size_affecting
      = true) ∧
    ∃ pre,
      (handle_events ⟨⟨0, 0⟩, ⟨100, 100⟩, ⟨0, 0⟩, ⟨0, 0⟩, 2, true, false, none⟩
          ⟨true, 2, ⟨0, 0⟩, ⟨100, 100⟩, none⟩
          [GlfwEvent.windowSize ⟨50, 60⟩, GlfwEvent.framebufferSize ⟨100, 120⟩]).2.2 =
        pre ++ [BevyEvent.windowResized
          (handle_events ⟨⟨0, 0⟩, ⟨100, 100⟩, ⟨0, 0⟩, ⟨0, 0⟩, 2, true, false, none⟩
            ⟨true, 2, ⟨0, 0⟩, ⟨100, 100⟩, none⟩
            [GlfwEvent.windowSize ⟨50, 60⟩, GlfwEvent.framebufferSize ⟨100, 120⟩]).1.size.x
          (handle_events ⟨⟨0, 0⟩, ⟨100, 100⟩, ⟨0, 0⟩, ⟨0, 0⟩, 2, true, false, none⟩
            ⟨true, 2, ⟨0, 0⟩, ⟨100, 100⟩, none⟩
            [GlfwEvent.windowSize ⟨50, 60⟩, GlfwEvent.framebufferSize ⟨100, 120⟩]).1.size.y] ∧
      pre.countP is_resized = 0 :=
  ⟨by decide,
    (handle_events_single_resize ⟨⟨0, 0⟩, ⟨100, 100⟩, ⟨0, 0⟩, ⟨0, 0⟩, 2, true, false, none⟩
      ⟨true, 2, ⟨0, 0⟩, ⟨100, 100⟩, none⟩
      [GlfwEvent.windowSize ⟨50, 60⟩, GlfwEvent.framebufferSize ⟨100, 120⟩]).2.1 (by decide)⟩

/-! ## C4: resize-constraint translation uses is_normal, not "finite positive" -/

/-- Counterexample to C4 as stated: `-5.0` is not a finite positive
number, yet `conv` passes it through as `-5` instead of translating it to
`GLFW_DONT_CARE` (negative normal numbers satisfy `is_normal`); and the
positive subnormal `2^(-149)` IS a finite positive number, yet `conv`
maps it to `GLFW_DONT_CARE` instead of passing it through. -/
theorem conv_not_finite_positive_counterexample :
    (¬ ∃ q : ℚ, F32.fin (-5) = F32.fin q ∧ 0 < q) ∧
    conv (F32.fin (-5)) = -5 ∧ (-5 : Int) ≠ GLFW_DONT_CARE ∧
    (∃ q : ℚ, F32.fin ((1 : ℚ) / 2 ^ 149) = F32.fin q ∧ 0 < q) ∧
    conv (F32.fin ((1 : ℚ) / 2 ^ 149)) = GLFW_DONT_CARE := by
  refine ⟨?_, ?_, by decide, ⟨(1 : ℚ) / 2 ^ 149, rfl, by positivity⟩, ?_⟩
  · rintro ⟨q, hq, hpos⟩
    injection hq with h
    rw [← h] at hpos
    exact absurd hpos (by norm_num)
  · have habs : |(-5 : ℚ)| = 5 := by rw [abs_of_nonpos (by norm_num)]; norm_num
    have hle : (1 : ℚ) / 2 ^ 126 ≤ |(-5 : ℚ)| := by rw [habs]; norm_num
    have hnum : ((-5 : ℚ)).num = -5 := by norm_num
    have hden : ((-5 : ℚ)).den = 1 := by norm_num
    simp only [conv, F32.is_normal, hle, decide_true_eq_true, if_true, f32_as_c_int,
      trunc_toward_zero, hnum, hden]
    decide
  · have hlt : ¬ ((1 : ℚ) / 2 ^ 126 ≤ |(1 : ℚ) / 2 ^ 149|) := by
      rw [abs_of_nonneg (by positivity)]
      rw [not_le, div_lt_div_iff₀ (by positivity) (by positivity)]
      norm_num
    simp only [conv, F32.is_normal, hlt, decide_false_eq_false, if_false]
    rfl

/-- C4 amended: `conv` translates a dimension to the native
"unconstrained" sentinel exactly when the dimension is not a NORMAL
number — NaN, infinite, zero and subnormal values (`|q| < 2^(-126)`) all
map to `GLFW_DONT_CARE`, while every normal dimension, positive or
negative, is truncated toward zero, saturated to the `i32` range, and
passed through to the native size-limit call; `set_resize_constraints`
applies this to all four dimensions. -/
theorem conv_normal_spec (d : F32) :
    (∀ c : WindowResizeConstraints,
      set_resize_constraints c =
        (conv c.min_width, conv c.min_height, conv c.max_width, conv c.max_height)) ∧
    ((¬ ∃ q : ℚ, d = F32.fin q ∧ (1 : ℚ) / 2 ^ 126 ≤ |q|) → conv d = GLFW_DONT_CARE) ∧
    (∀ q : ℚ, d = F32.fin q → (1 : ℚ) / 2 ^ 126 ≤ |q| →
      conv d = max (-(2 ^ 31)) (min (2 ^ 31 - 1) (trunc_toward_zero q))) := by
  refine ⟨fun c => rfl, ?_, ?_⟩
  · intro h
    cases d with
    | nan => rfl
    | inf neg => rfl
    | fin q =>
      have hq : ¬ ((1 : ℚ) / 2 ^ 126 ≤ |q|) := fun hq => h ⟨q, rfl, hq⟩
      simp only [conv, F32.is_normal, hq, decide_false_eq_false, if_false]
      rfl
  · rintro q rfl hq
    simp only [conv, F32.is_normal, hq, decide_true_eq_true, if_true, f32_as_c_int]

/-- Witness for C4 amended: the normal value 300 passes through, NaN maps
to the sentinel. -/
theorem conv_normal_spec_witness :
    conv (F32.fin 300) = max (-(2 ^ 31)) (min (2 ^ 31 - 1) (trunc_toward_zero 300)) ∧
    conv F32.nan = GLFW_DONT_CARE := by
  constructor
  · exact (conv_normal_spec (F32.fin 300)).2.2 300 rfl
      (by rw [abs_of_nonneg (by norm_num)]; norm_num)
  · exact (conv_normal_spec F32.nan).2.1 (by rintro ⟨q, hq, -⟩; exact F32.noConfusion hq)

/-! ## C5: close handling: hide non-last windows, no release on last close -/

/-- Counterexample to C5 as stated: closing the last remaining window
performs NO native call at all at close time — in particular nothing that
releases native resources (no destroy, no terminate).  Release only
happens later, when the runner loop exits and terminates the library. -/
theorem close_last_window_counterexample :
    change_window_close false [⟨⟨0, 0⟩, 1920, 1080⟩]
        [(1, ⟨⟨10, 20⟩, ⟨100, 100⟩, ⟨0, 0⟩, ⟨0, 0⟩, 1, true, false, none⟩)] 1 =
      some ([], []) ∧
    NativeCall.destroy_window ∉ ([] : List NativeCall) ∧
    NativeCall.terminate ∉ ([] : List NativeCall) := by
  refine ⟨rfl, by simp, by simp⟩

/-- C5 amended: when a close command is processed for a live window and
other windows remain, the closed window is forced back to `Windowed` mode
(every native monitor call made is a windowed restore) and then hidden as
the last native call; its native handle is never destroyed.  When it is
the last remaining window, no native call is made at close time; all
native resources are only released by the runner's library termination
after the loop exits. -/
theorem change_window_close_spec (wayland : Bool) (ms : List Monitor)
    (windows : List (Nat × GlfwWindow)) (id : Nat) (w : GlfwWindow)
    (hms : ms ≠ []) (hfound : windows.lookup id = some w) :
    (windows.filter (fun p => p.1 != id) = [] →
      change_window_close wayland ms windows id = some ([], [])) ∧
    (windows.filter (fun p => p.1 != id) ≠ [] →
      ∃ calls, change_window_close wayland ms windows id =
          some (windows.filter (fun p => p.1 != id), calls) ∧
        calls.getLast? = some NativeCall.hide_window ∧
        calls.all close_call_ok = true) ∧
    glfw_runner_shutdown = [NativeCall.terminate] := by
  refine ⟨?_, ?_, rfl⟩
  · intro hempty
    simp [change_window_close, hfound, hempty]
  · intro hne
    obtain ⟨a, l, hf⟩ : ∃ a l, windows.filter (fun p => p.1 != id) = a :: l := by
      cases hfil : windows.filter (fun p => p.1 != id) with
      | nil => exact absurd hfil hne
      | cons a l => exact ⟨a, l, rfl⟩
    cases hnm : w.native_monitor with
    | none =>
      have hsw : set_window_mode wayland ms w WindowMode.Windowed ⟨0, 0⟩ = some (w, []) := by
        simp [set_window_mode, hnm]
      refine ⟨[NativeCall.hide_window], ?_, rfl, rfl⟩
      rw [hf]
      simp [change_window_close, hfound, hsw, hf]
    | some t0 =>
      have hsw := set_window_mode_restore wayland ms w ⟨0, 0⟩ t0 hms hnm
      refine ⟨[NativeCall.set_window_monitor none w.pre_fullscreen_pos.x
        w.pre_fullscreen_pos.y (u32_as_i32 w.pre_fullscreen_size.x)
        (u32_as_i32 w.pre_fullscreen_size.y), NativeCall.hide_window], ?_, rfl, rfl⟩
      rw [hf]
      simp [change_window_close, hfound, hsw, hf]

/-- Witness for C5 amended: closing fullscreen window 1 while window 2
remains forces it windowed, hides it, and destroys nothing. -/
theorem change_window_close_spec_witness :
    ∃ calls,
      change_window_close false [⟨⟨0, 0⟩, 1920, 1080⟩]
          [(1, ⟨⟨10, 20⟩, ⟨100, 100⟩, ⟨5, 6⟩, ⟨70, 80⟩, 1, true, false, some 0⟩),
            (2, ⟨⟨0, 0⟩, ⟨50, 50⟩, ⟨0, 0⟩, ⟨0, 0⟩, 1, true, false, none⟩)] 1 =
        some ([(2, ⟨⟨0, 0⟩, ⟨50, 50⟩, ⟨0, 0⟩, ⟨0, 0⟩, 1, true, false, none⟩)], calls) ∧
      calls.getLast? = some NativeCall.hide_window ∧
      calls.all close_call_ok = true :=
  (change_window_close_spec false [⟨⟨0, 0⟩, 1920, 1080⟩]
    [(1, ⟨⟨10, 20⟩, ⟨100, 100⟩, ⟨5, 6⟩, ⟨70, 80⟩, 1, true, false, some 0⟩),
      (2, ⟨⟨0, 0⟩, ⟨50, 50⟩, ⟨0, 0⟩, ⟨0, 0⟩, 1, true, false, none⟩)] 1
    ⟨⟨10, 20⟩, ⟨100, 100⟩, ⟨5, 6⟩, ⟨70, 80⟩, 1, true, false, some 0⟩
    (by decide) rfl).2.1 (by intro h; exact List.noConfusion h)

/-! ## C6: anisotropic content scale is fatal -/

/-- C6: the equality of horizontal and vertical content scale is checked
fatally both at window creation and on every content-scale callback: an
asymmetric pair (such as `(2.0, 1.5)`) aborts (`none`) and appends no
event record, while a symmetric pair appends exactly one
content-scale record carrying the common factor. -/
theorem content_scale_anisotropy_fatal (events : List GlfwEvent) (xscale yscale : ℚ) :
    (xscale ≠ yscale →
      windowcontentscale events xscale yscale = none ∧
      new_content_scale_check xscale yscale = none) ∧
    (xscale = yscale →
      windowcontentscale events xscale yscale =
        some (events ++ [GlfwEvent.windowContentScale xscale]) ∧
      new_content_scale_check xscale yscale = some xscale) := by
  constructor
  · intro h
    exact ⟨by simp [windowcontentscale, h], by simp [new_content_scale_check, h]⟩
  · intro h
    exact ⟨by simp [windowcontentscale, h], by simp [new_content_scale_check, h]⟩

/-- Witness for C6: the asymmetric scale pair (2, 3/2) aborts in both the
callback and the creation check. -/
theorem content_scale_anisotropy_fatal_witness :
    windowcontentscale [] 2 (3 / 2) = none ∧ new_content_scale_check 2 (3 / 2) = none :=
  (content_scale_anisotropy_fatal [] 2 (3 / 2)).1 (by norm_num)

/-! ## C7: callbacks append records; char_ and drop_ can append fewer -/

/-- Counterexample to C7 as stated: the `char_` callback appends ZERO
records for the surrogate codepoint `0xD800`, and the `drop_` callback
appends ZERO records for a one-path drop whose path fails to decode —
not "exactly one record per invocation (or N for a drop of N paths)". -/
theorem callback_append_counterexample :
    char_ [] 55296 = ([] : List GlfwEvent) ∧
    drop_ [] [none] = ([] : List GlfwEvent) :=
  ⟨rfl, rfl⟩

theorem drop_filterMap_length (paths : List (Option String)) :
    (paths.filterMap (fun path => path.map GlfwEvent.drop)).length =
      (paths.filterMap id).length := by
  induction paths with
  | nil => rfl
  | cons p rest ih => cases p <;> simp [List.filterMap_cons, ih]

/-- C7 amended: every native callback only appends to the pending record
sequence and touches nothing else; each invocation appends exactly one
record, except that `char_` appends one record for a valid scalar value
and zero for an invalid codepoint, `drop_` appends exactly one record per
successfully decoded path (decoding failures are skipped), and
`windowcontentscale`, `mousebutton` and `key` append their single record
only when they do not abort. -/
theorem callbacks_append_only (events : List GlfwEvent) :
    (windowclose events = events ++ [GlfwEvent.windowClose]) ∧
    (∀ f : Int, windowfocus events f = events ++ [GlfwEvent.windowFocused (f == 1)]) ∧
    (∀ x y : ℚ, x = y → windowcontentscale events x y =
      some (events ++ [GlfwEvent.windowContentScale x])) ∧
    (∀ x y : Int, windowpos events x y = events ++ [GlfwEvent.windowPos ⟨x, y⟩]) ∧
    (∀ x y : Int, windowsize events x y =
      events ++ [GlfwEvent.windowSize ⟨i32_as_u32 x, i32_as_u32 y⟩]) ∧
    (∀ x y : Int, framebuffersize events x y =
      events ++ [GlfwEvent.framebufferSize ⟨i32_as_u32 x, i32_as_u32 y⟩]) ∧
    (∀ paths : List (Option String), ∃ recs, drop_ events paths = events ++ recs ∧
      recs.length = (paths.filterMap id).length) ∧
    (∀ x y : ℚ, scroll events x y = events ++ [GlfwEvent.scroll x y]) ∧
    (∀ e : Int, cursorenter events e = events ++ [GlfwEvent.cursorEnter (e == 1)]) ∧
    (∀ x y : ℚ, cursorpos events x y = events ++ [GlfwEvent.cursorPos x y]) ∧
    (∀ b a : Int, i32_as_u32 a = 0 ∨ i32_as_u32 a = 1 →
      ∃ r, mousebutton events b a = some (events ++ [r])) ∧
    (∀ n : Nat, ∃ recs, char_ events n = events ++ recs ∧
      recs.length = if Nat.isValidChar n then 1 else 0) ∧
    (∀ k sc a : Int, i32_as_u32 a = 0 ∨ i32_as_u32 a = 1 ∨ i32_as_u32 a = 2 →
      ∃ r, key events k sc a = some (events ++ [r])) := by
  refine ⟨rfl, fun f => rfl, ?_, fun x y => rfl, fun x y => rfl, fun x y => rfl, ?_,
    fun x y => rfl, fun e => rfl, fun x y => rfl, ?_, ?_, ?_⟩
  · intro x y h
    simp [windowcontentscale, h]
  · intro paths
    exact ⟨_, rfl, drop_filterMap_length paths⟩
  · intro b a h
    unfold mousebutton
    rcases h with h | h <;> rw [h]
    · exact ⟨_, rfl⟩
    · exact ⟨_, rfl⟩
  · intro n
    unfold char_ char_from_u32
    by_cases hv : Nat.isValidChar n
    · rw [if_pos hv]
      exact ⟨[GlfwEvent.char n], rfl, by rw [if_pos hv]; rfl⟩
    · rw [if_neg hv]
      exact ⟨[], by simp, by rw [if_neg hv]; rfl⟩
  · intro k sc a h
    unfold key
    rcases h with h | h | h <;> rw [h]
    · exact ⟨_, rfl⟩
    · exact ⟨_, rfl⟩
    · exact ⟨_, rfl⟩

/-- Witness for C7 amended: a close callback and a symmetric
content-scale callback each append exactly their one record. -/
theorem callbacks_append_only_witness :
    windowclose [] = [GlfwEvent.windowClose] ∧
    windowcontentscale [] 2 2 = some [GlfwEvent.windowContentScale 2] := by
  obtain ⟨h1, -, h3, -⟩ := callbacks_append_only []
  exact ⟨by simpa using h1, by simpa using h3 2 2 rfl⟩

/-! ## C8: cursor position: physical is flipped and scaled, the forwarded
logical position is flipped too -/

/-- Counterexample to C8 as stated: for a cursor-moved record at
top-left-origin position (10, 30) on a window of cached height 100, the
forwarded cursor-moved event carries the origin-CONVERTED position
(10, 70), not the unconverted logical position (10, 30). -/
theorem cursor_pos_forward_counterexample :
    (handle_events ⟨⟨0, 0⟩, ⟨100, 100⟩, ⟨0, 0⟩, ⟨0, 0⟩, 2, true, false, none⟩
        ⟨true, 2, ⟨0, 0⟩, ⟨100, 100⟩, none⟩ [GlfwEvent.cursorPos 10 30]).2.2 =
      [BevyEvent.cursorMoved 10 70] ∧
    BevyEvent.cursorMoved (10 : ℚ) (70 : ℚ) ≠ BevyEvent.cursorMoved 10 30 := by
  constructor
  · norm_num [handle_events, handle_events_aux, handle_one]
  · intro h
    injection h with h1 h2
    exact absurd h2 (by norm_num)

/-- C8 amended: a drained cursor-moved record with top-left-origin
position (x, y) on a window of cached logical height h and scale factor s
stores `(x*s, (h-y)*s)` — origin-flipped and scaled — as the bevy
window's physical cursor position, and forwards the origin-flipped but
UNSCALED logical position `(x, h-y)` as the cursor-moved event's
position. -/
theorem cursor_pos_conversion (w : GlfwWindow) (bw : BevyWindow) (x y : ℚ) :
    handle_events w bw [GlfwEvent.cursorPos x y] =
      (w, { bw with cursor_physical := some (x * w.scale_factor, ((w.size.y : ℚ) - y) * w.scale_factor) }, [BevyEvent.cursorMoved x ((w.size.y : ℚ) - y)]) :=
  rfl

/-! ## C9: key records carry scancode and optional keycode; repeat
collapses to pressed -/

/-- Counterexample to C9 as stated: the produced state does not
distinguish a repeat from a press — `GLFW_REPEAT` (2) and `GLFW_PRESS`
(1) produce identical key records, so there is no "repeated" state. -/
theorem key_repeat_counterexample :
    key [] 65 30 2 = key [] 65 30 1 ∧ (2 : Int) ≠ 1 :=
  ⟨rfl, by decide⟩

/-- C9 amended: for every native key callback with a valid action, the
produced record carries the native scancode, the logical keycode of the
translation table when the native key is mapped and no logical code when
it is unmapped (the record is still delivered), and a state that is
`released` for `GLFW_RELEASE` and `pressed` for both `GLFW_PRESS` and
`GLFW_REPEAT`. -/
theorem key_callback_record (events : List GlfwEvent) (k sc a : Int)
    (h : i32_as_u32 a = 0 ∨ i32_as_u32 a = 1 ∨ i32_as_u32 a = 2) :
    key events k sc a = some (events ++ [GlfwEvent.key ⟨i32_as_u32 sc,
      key_code_of (i32_as_u32 k),
      if i32_as_u32 a = 0 then ButtonState.released else ButtonState.pressed⟩]) := by
  unfold key
  rcases h with h | h | h <;> rw [h] <;> simp

/-- Witness for C9 amended: the unmapped key 280 (Caps Lock) is still
delivered carrying only its scancode, and key 65 maps to `A`. -/
theorem key_callback_record_witness :
    key [] 280 17 1 = some [GlfwEvent.key ⟨17, none, ButtonState.pressed⟩] ∧
    key [] 65 30 0 = some [GlfwEvent.key ⟨30, some KeyCode.A, ButtonState.released⟩] := by
  constructor
  · have h := key_callback_record [] 280 17 1 (by decide)
    rw [h]
    decide
  · have h := key_callback_record [] 65 30 0 (by decide)
    rw [h]
    decide

/-! ## C10: invalid codepoints are silently dropped -/

/-- C10: a character-input callback whose codepoint is not a valid
Unicode scalar value appends no record and raises no error (the pending
sequence is returned unchanged), while a valid scalar value appends
exactly one character record carrying that codepoint. -/
theorem char_callback_valid_scalar (events : List GlfwEvent) (codepoint : Nat) :
    (¬ Nat.isValidChar codepoint → char_ events codepoint = events) ∧
    (Nat.isValidChar codepoint →
      char_ events codepoint = events ++ [GlfwEvent.char codepoint]) := by
  constructor
  · intro h
    unfold char_ char_from_u32
    rw [if_neg h]
  · intro h
    unfold char_ char_from_u32
    rw [if_pos h]

/-- Witness for C10: the surrogate 0xD800 is dropped silently, the valid
scalar 97 is delivered. -/
theorem char_callback_valid_scalar_witness :
    (¬ Nat.isValidChar 55296) ∧ char_ [] 55296 = [] ∧
    Nat.isValidChar 97 ∧ char_ [] 97 = [GlfwEvent.char 97] := by
  refine ⟨by decide, ?_, by decide, ?_⟩
  · exact (char_callback_valid_scalar [] 55296).1 (by decide)
  · have h := (char_callback_valid_scalar [] 97).2 (by decide)
    simpa using h
